import Mathlib

/-!
# Verification of the Agamotto slider (`src/scripts/slider.js`)

Shallow embedding of the position-controller logic of `Agamotto.Slider`.
JavaScript numbers are modelled as exact rationals; `Option ℚ` with `none`
standing for `NaN` (IEEE rounding is abstracted to exact rational
arithmetic; infinities do not arise on the modelled paths because whenever
a denominator is `0` the numerator is `0` or `NaN`, so `none` is exact).
DOM-only plumbing (CSS classes, tick/label layout, ARIA attributes) is out
of scope; the fields the logic reads and writes (`thumb.style.left`, the
disabled class, the transition class) are part of the state.  Emitted
notifications (`trigger('update', …)`, `parent.xAPIInteracted()`,
`parent.xAPICompleted()`) are collected in an event list.
-/

namespace Agamotto

/-- A JavaScript number: `some q` is the exact rational value, `none` is `NaN`. -/
abbrev JSNum := Option ℚ

/-- JavaScript truncation toward zero, as performed by `parseInt` on a finite
number or on a numeral string such as `"97.5px"`. -/
def jsTrunc (q : ℚ) : ℤ :=
  if 0 ≤ q then ⌊q⌋ else -⌊-q⌋

/-- `parseInt` applied to a JS number (`parseInt(NaN) = NaN`). -/
def jsParseIntNum (v : JSNum) : JSNum :=
  v.map (fun q => (jsTrunc q : ℚ))

/-- JS addition; `NaN` propagates. -/
def jsAdd (a b : JSNum) : JSNum :=
  match a, b with
  | some x, some y => some (x + y)
  | _, _ => none

/-- JS subtraction; `NaN` propagates. -/
def jsSub (a b : JSNum) : JSNum :=
  match a, b with
  | some x, some y => some (x - y)
  | _, _ => none

/-- JS multiplication; `NaN` propagates.  (`0 * Infinity = NaN` cannot arise:
no infinity is produced on the modelled paths.) -/
def jsMul (a b : JSNum) : JSNum :=
  match a, b with
  | some x, some y => some (x * y)
  | _, _ => none

/-- JS division; `NaN` propagates and a zero denominator yields `none`.
On every path of this file the numerator is `0` (or already `NaN`) whenever
the denominator is `0`, so `none` models exactly the JS result `0/0 = NaN`. -/
def jsDiv (a b : JSNum) : JSNum :=
  match a, b with
  | some x, some y => if y = 0 then none else some (x / y)
  | _, _ => none

/-- `Math.round`: round half toward positive infinity, which is Mathlib's
`round` (`round q = ⌊q + 1/2⌋`); `Math.round(NaN) = NaN`. -/
def jsRound (v : JSNum) : JSNum :=
  v.map (fun q => ((round q : ℤ) : ℚ))

/-- Modelled from the spec: `Agamotto.constrain` is defined in a repository
file that is not under `src/`; the spec states the raw value is clamped to
`[low, high]` (`Math.min(high, Math.max(low, value))`); `Math.min`/`Math.max`
propagate `NaN`. -/
def constrain (v : JSNum) (lo hi : ℚ) : JSNum :=
  v.map (fun x => min hi (max lo x))

/-- Modelled from the spec: `Agamotto.map` is defined in a repository file
that is not under `src/`; the spec states it is linear interpolation
`map(v, inLo, inHi, outLo, outHi) = outLo + (v - inLo) * (outHi - outLo) / (inHi - inLo)`. -/
def map (v inLo inHi outLo outHi : JSNum) : JSNum :=
  jsAdd outLo (jsDiv (jsMul (jsSub v inLo) (jsSub outHi outLo)) (jsSub inHi inLo))

/-- `Agamotto.Slider.TRACK_OFFSET` (slider.js line 169). -/
def TRACK_OFFSET : ℚ := 16

/-- `Agamotto.Slider.THUMB_OFFSET` (slider.js line 171). -/
def THUMB_OFFSET : ℚ := 8

/-- Notifications emitted to the environment: `trigger('update', {position,
percentage})`, `parent.xAPIInteracted()` and `parent.xAPICompleted()`. -/
inductive SliderEvent where
  | update (position : JSNum) (percentage : JSNum)
  | xAPIInteracted
  | xAPICompleted
deriving DecidableEq, Repr

/-- A pointer/touch event as far as the slider reads it: its `type` string,
the `pageX` of the first touch when it is a touch event, and `clientX`. -/
structure JSEvent where
  type : String
  touches : Option ℚ
  clientX : ℚ
deriving DecidableEq, Repr

/-- `getPointerX` (slider.js lines 274-283). -/
def getPointerX (e : JSEvent) : ℚ :=
  match e.touches with
  | some x => x
  | none => e.clientX

/-- The mixed-type `position` parameter of `setPosition`: a number (possibly
`NaN`), a numeral string, a pointer/touch event, or anything else. -/
inductive SPInput where
  | num (v : JSNum)
  | str (v : ℚ)
  | ev (e : JSEvent)
  | other
deriving DecidableEq, Repr

/-- Mutable state of `Agamotto.Slider` (constructor, slider.js lines 17-172).
`thumbLeft` is `thumb.style.left` in pixels (`none` = never set, so the style
string is empty); `animateClass` is the presence of the
`h5p-agamotto-transition` class; `disabled` is the presence of the
`h5p-agamotto-disabled` class on the thumb; `keydown` is the JS field holding
`false` or a key code; `sliderdown` starts `undefined` (falsy).
The constructor fields `thumbPosition` and `interactionstarted` are written
once and never read, so they are omitted. -/
structure Slider where
  /-- `options.snap` -/
  snap : Bool
  /-- `options.size` -/
  size : ℚ
  trackWidth : ℚ
  ratio : JSNum
  mousedown : Bool
  keydown : Option ℕ
  sliderdown : Bool
  disabled : Bool
  thumbLeft : Option ℚ
  animateClass : Bool
deriving DecidableEq, Repr

/-- Initial state built by the constructor (lines 34-43):
`trackWidth = 0`, `thumbPosition = 0`, `ratio = 0`, all flags off. -/
def Slider.init (snap : Bool) (size : ℚ) : Slider :=
  { snap := snap, size := size, trackWidth := 0, ratio := some 0,
    mousedown := false, keydown := none, sliderdown := false,
    disabled := false, thumbLeft := none, animateClass := false }

/-- Layout metrics the slider reads from the DOM: the `parseInt`-ed computed
styles used in the event branch of `setPosition` (lines 220-222) and the
container width used by `resize` (line 286).  The fields hold the rational
value the style string denotes; `setPosition` applies `jsTrunc` to them. -/
structure Env where
  containerMarginLeft : ℚ
  selectorPaddingLeft : ℚ
  selectorMarginLeft : ℚ
  containerOffsetWidth : ℚ
deriving DecidableEq, Repr

/-- `disable` (lines 182-185): adds the disabled class. -/
def disable (s : Slider) : Slider := { s with disabled := true }

/-- `enable` (lines 186-189): removes the disabled class. -/
def enable (s : Slider) : Slider := { s with disabled := false }

/-- `setWidth` (lines 190-193): sets `trackWidth` (the style write is
presentation). -/
def setWidth (s : Slider) (value : ℚ) : Slider := { s with trackWidth := value }

/-- `getWidth` (lines 194-196). -/
def getWidth (s : Slider) : ℚ := s.trackWidth

/-- `getPosition` (lines 252-254): `parseInt(thumb.style.left) - THUMB_OFFSET`
when the style was ever set, else `0`. -/
def getPosition (s : Slider) : ℚ :=
  match s.thumbLeft with
  | some l => (jsTrunc l : ℚ) - THUMB_OFFSET
  | none => 0

/-- `setPosition` (lines 204-251).  Returns the new state and the emitted
notifications.  Faithful to the source:
* disabled guard (lines 205-207);
* `parseInt` on number/string input (lines 210-212);
* event input: no-op when `mousedown` is false and the type is `'mousemove'`
  (lines 214-216), otherwise track-local coordinate from `getPointerX` minus
  `TRACK_OFFSET` and the three `parseInt`-ed computed styles (lines 218-222);
* any other input collapses to `0` (lines 224-226);
* clamp via `Agamotto.constrain(position, 0, getWidth())` (line 227);
* transition class from `animate` (lines 230-234);
* `ratio = position / getWidth()` unless `resize` (lines 237-239), unguarded,
  so `0/0 = NaN` when the width is `0`;
* `thumb.style.left = position + THUMB_OFFSET + 'px'` (line 242); when
  `position` is `NaN` the string `"NaNpx"` is an invalid CSS value and the
  CSSOM leaves `style.left` unchanged;
* `percentage = Math.round(position / getWidth() * 100)` (line 243), and the
  `update` notification `{position, percentage}` (lines 247-250). -/
def setPosition (env : Env) (s : Slider) (position : SPInput)
    (animate : Bool) (rz : Bool) : Slider × List SliderEvent :=
  if s.disabled then (s, [])
  else
    let raw? : Option JSNum :=
      match position with
      | .num v => some (jsParseIntNum v)
      | .str v => some (some ((jsTrunc v : ℤ) : ℚ))
      | .ev e =>
          if s.mousedown = false ∧ e.type = "mousemove" then none
          else some (some (getPointerX e - TRACK_OFFSET
              - ((jsTrunc env.containerMarginLeft : ℤ) : ℚ)
              - ((jsTrunc env.selectorPaddingLeft : ℤ) : ℚ)
              - ((jsTrunc env.selectorMarginLeft : ℤ) : ℚ)))
      | .other => some (some 0)
    match raw? with
    | none => (s, [])
    | some raw =>
        let pos := constrain raw 0 (getWidth s)
        let s₁ := { s with animateClass := animate }
        let s₂ := if rz = false
          then { s₁ with ratio := jsDiv pos (some (getWidth s₁)) }
          else s₁
        let s₃ := { s₂ with thumbLeft :=
          match pos with
          | some p => some (p + THUMB_OFFSET)
          | none => s₂.thumbLeft }
        let percentage := jsRound (jsMul (jsDiv pos (some (getWidth s₃))) (some 100))
        (s₃, [SliderEvent.update pos percentage])

/-- The pixel value `snapIndex * getWidth() / options.size` that `snap`
passes to `setPosition` (lines 260-261), with
`snapIndex = Math.round(Agamotto.map(ratio, 0, 1, 0, options.size))`. -/
def snapArg (s : Slider) : JSNum :=
  jsDiv (jsMul (jsRound (map s.ratio (some 0) (some 1) (some 0) (some s.size)))
      (some (getWidth s)))
    (some s.size)

/-- `snap` (lines 258-273): snap to the closest tick when `options.snap`,
then, when `sliderdown` is set, fire `xAPIInteracted` and `xAPICompleted`
(in that order) and clear `sliderdown`. -/
def snap (env : Env) (s : Slider) : Slider × List SliderEvent :=
  let r₁ :=
    if s.snap = true then setPosition env s (.num (snapArg s)) true false
    else (s, [])
  if r₁.1.sliderdown = true then
    ({ r₁.1 with sliderdown := false },
      r₁.2 ++ [SliderEvent.xAPIInteracted, SliderEvent.xAPICompleted])
  else r₁

/-- `resize` (lines 285-287): recompute the track width from the container
width minus the track offsets, then reposition from the stored ratio with
`resize = true`.  The remaining tick/label layout (lines 289-325) is
presentation only. -/
def resize (env : Env) (s : Slider) : Slider × List SliderEvent :=
  let s₁ := setWidth s (((jsTrunc env.containerOffsetWidth : ℤ) : ℚ) - 2 * TRACK_OFFSET)
  setPosition env s₁ (.num (jsMul (some (getWidth s₁)) s₁.ratio)) false true

/-- The `document` `mousemove` listener (lines 92-94). -/
def onDocumentMousemove (env : Env) (s : Slider) (e : JSEvent) :
    Slider × List SliderEvent :=
  setPosition env s (.ev e) false false

/-- The `document` `mouseup` listener (lines 95-98): clear `mousedown`, then
`snap()`. -/
def onDocumentMouseup (env : Env) (s : Slider) : Slider × List SliderEvent :=
  snap env { s with mousedown := false }

/-- The `mousedown` listener on the track (lines 99-104) — the thumb's
listener (lines 105-110) is identical: set `mousedown` and `sliderdown`,
then position from the event. -/
def onTrackMousedown (env : Env) (s : Slider) (e : JSEvent) :
    Slider × List SliderEvent :=
  setPosition env { s with mousedown := true, sliderdown := true } (.ev e) false false

/-- The `touchstart`/`touchmove` listeners on the container (lines 119-131)
both call `setPosition(e, false)`. -/
def onContainerTouch (env : Env) (s : Slider) (e : JSEvent) :
    Slider × List SliderEvent :=
  setPosition env s (.ev e) false false

/-- The `touchend` listener (lines 132-137): `snap()`. -/
def onContainerTouchend (env : Env) (s : Slider) : Slider × List SliderEvent :=
  snap env s

/-- The `keydown` listener on the thumb (lines 140-153).  Two sequential
guards: left (key 37) fires when no key is held or key 37 is already held,
moving by `-0.01 * parseInt(getWidth())`; right (key 39) symmetric with `+`. -/
def onThumbKeydown (env : Env) (s : Slider) (key : ℕ) :
    Slider × List SliderEvent :=
  let r₁ :=
    if key = 37 ∧ (s.keydown = none ∨ s.keydown = some 37) then
      let s' := { s with keydown := some 37 }
      setPosition env s'
        (.num (some (getPosition s' - 1/100 * ((jsTrunc (getWidth s') : ℤ) : ℚ))))
        false false
    else (s, [])
  if key = 39 ∧ (r₁.1.keydown = none ∨ r₁.1.keydown = some 39) then
    let s' := { r₁.1 with keydown := some 39 }
    let r₂ := setPosition env s'
      (.num (some (getPosition s' + 1/100 * ((jsTrunc (getWidth s') : ℤ) : ℚ))))
      false false
    (r₂.1, r₁.2 ++ r₂.2)
  else r₁

/-- The `keyup` listener on the thumb (lines 156-160): `snap()`, then clear
`keydown`. -/
def onThumbKeyup (env : Env) (s : Slider) : Slider × List SliderEvent :=
  let r := snap env s
  ({ r.1 with keydown := none }, r.2)

/-- Clamp used to state the spec's properties. -/
def clampQ (v lo hi : ℚ) : ℚ := min hi (max lo v)

/-- A concrete environment: all insets zero, container 232px wide, so the
recomputed track width is `232 - 2*16 = 200`. -/
def env0 : Env :=
  { containerMarginLeft := 0, selectorPaddingLeft := 0,
    selectorMarginLeft := 0, containerOffsetWidth := 232 }

/-- A freshly constructed slider (snap on, 4 steps) whose track is 200px. -/
def sW200 : Slider := { Slider.init true 4 with trackWidth := 200 }

/-- `sW200` with the thumb at 100px (style.left = 108px). -/
def sThumb100 : Slider := { sW200 with thumbLeft := some 108 }

/-- `sThumb100` while the left arrow key (37) is held. -/
def sHeldLeft : Slider := { sThumb100 with keydown := some 37 }

/-- `sW200` with stored ratio 0.3. -/
def sRatio03 : Slider := { sW200 with ratio := some (3/10) }

/-- A slider with stale track width 999 and stored ratio 0.3, about to be
resized. -/
def sStale : Slider := { Slider.init true 4 with trackWidth := 999, ratio := some (3/10) }

/-- A slider with `options.size = 0`, snap enabled, ratio 0.5. -/
def sSize0 : Slider := { Slider.init true 0 with trackWidth := 200, ratio := some (1/2) }

/-- A concrete `mousedown` event on the track. -/
def eDown : JSEvent := { type := "mousedown", touches := none, clientX := 116 }

/-- A concrete `mousemove` event. -/
def eMove : JSEvent := { type := "mousemove", touches := none, clientX := 116 }

/-- `true` for the two xAPI notifications, `false` for `update`. -/
def SliderEvent.isXAPI : SliderEvent → Bool
  | .update _ _ => false
  | .xAPIInteracted => true
  | .xAPICompleted => true

/-- Result of an accepted `setPosition` whose raw value is the finite
number `x` (characterization used by the lemmas below). -/
def spFinite (s : Slider) (x : ℚ) (animate rz : Bool) : Slider × List SliderEvent :=
  let c := min s.trackWidth (max 0 x)
  ({ s with animateClass := animate,
            ratio := if rz = false then jsDiv (some c) (some s.trackWidth) else s.ratio,
            thumbLeft := some (c + THUMB_OFFSET) },
    [SliderEvent.update (some c)
      (jsRound (jsMul (jsDiv (some c) (some s.trackWidth)) (some 100)))])

/-- Result of an accepted `setPosition` whose raw value is `NaN`
(characterization used by the lemmas below). -/
def spNaN (s : Slider) (animate rz : Bool) : Slider × List SliderEvent :=
  ({ s with animateClass := animate,
            ratio := if rz = false then none else s.ratio },
    [SliderEvent.update none none])

/-- Every call to `setPosition` is a silent no-op, an accepted update with a
finite raw value, or an accepted update with raw value `NaN`. -/
theorem setPosition_spec (env : Env) (s : Slider) (i : SPInput) (a rz : Bool) :
    setPosition env s i a rz = (s, [])
      ∨ (∃ x : ℚ, setPosition env s i a rz = spFinite s x a rz)
      ∨ setPosition env s i a rz = spNaN s a rz := by
  by_cases hd : s.disabled
  · exact Or.inl (by simp [setPosition, hd])
  · cases i with
    | num v =>
        cases v with
        | none =>
            refine Or.inr (Or.inr ?_)
            cases rz <;>
              simp [setPosition, hd, spNaN, jsParseIntNum, constrain, jsDiv, jsMul, jsRound]
        | some q =>
            refine Or.inr (Or.inl ⟨((jsTrunc q : ℤ) : ℚ), ?_⟩)
            cases rz <;>
              simp [setPosition, hd, spFinite, jsParseIntNum, constrain, getWidth]
    | str v =>
        refine Or.inr (Or.inl ⟨((jsTrunc v : ℤ) : ℚ), ?_⟩)
        cases rz <;>
          simp [setPosition, hd, spFinite, constrain, getWidth]
    | ev e =>
        by_cases hm : s.mousedown = false ∧ e.type = "mousemove"
        · exact Or.inl (by simp [setPosition, hd, hm])
        · refine Or.inr (Or.inl ⟨getPointerX e - TRACK_OFFSET
            - ((jsTrunc env.containerMarginLeft : ℤ) : ℚ)
            - ((jsTrunc env.selectorPaddingLeft : ℤ) : ℚ)
            - ((jsTrunc env.selectorMarginLeft : ℤ) : ℚ), ?_⟩)
          cases rz <;>
            simp [setPosition, hd, hm, spFinite, constrain, getWidth]
    | other =>
        refine Or.inr (Or.inl ⟨0, ?_⟩)
        cases rz <;>
          simp [setPosition, hd, spFinite, constrain, getWidth]

/-- An accepted `setPosition` with a finite numeric input computes exactly
the finite-raw update with raw value `parseInt(p)`. -/
theorem setPosition_num_some (env : Env) (s : Slider) (p : ℚ) (a rz : Bool)
    (hd : s.disabled = false) :
    setPosition env s (.num (some p)) a rz = spFinite s ((jsTrunc p : ℤ) : ℚ) a rz := by
  cases rz <;>
    simp [setPosition, hd, spFinite, jsParseIntNum, constrain, getWidth]

/-- `setPosition` never touches `trackWidth`, `mousedown`, `keydown`,
`sliderdown`, `snap`, `size` or `disabled`. -/
theorem setPosition_frame (env : Env) (s : Slider) (i : SPInput) (a rz : Bool) :
    (setPosition env s i a rz).1.trackWidth = s.trackWidth
      ∧ (setPosition env s i a rz).1.sliderdown = s.sliderdown
      ∧ (setPosition env s i a rz).1.keydown = s.keydown
      ∧ (setPosition env s i a rz).1.snap = s.snap
      ∧ (setPosition env s i a rz).1.size = s.size
      ∧ (setPosition env s i a rz).1.disabled = s.disabled := by
  rcases setPosition_spec env s i a rz with h | ⟨x, h⟩ | h <;>
    simp [h, spFinite, spNaN]

/-- `setPosition` emits no xAPI notification: filtering its event list for
xAPI events yields the empty list. -/
theorem setPosition_no_xapi (env : Env) (s : Slider) (i : SPInput) (a rz : Bool) :
    ((setPosition env s i a rz).2).filter SliderEvent.isXAPI = [] := by
  rcases setPosition_spec env s i a rz with h | ⟨x, h⟩ | h <;>
    simp [h, spFinite, spNaN, SliderEvent.isXAPI]

/-- Position read back after a finite-raw update, when the track width is
nonnegative: the floor of the clamped raw value. -/
theorem getPosition_spFinite (s : Slider) (x : ℚ) (a rz : Bool)
    (hw : 0 ≤ s.trackWidth) :
    getPosition (spFinite s x a rz).1
      = ((⌊min s.trackWidth (max 0 x)⌋ : ℤ) : ℚ) := by
  have hc : 0 ≤ min s.trackWidth (max 0 x) := le_min hw (le_max_left 0 x)
  have h8 : (0 : ℚ) ≤ min s.trackWidth (max 0 x) + THUMB_OFFSET := by
    have : (0 : ℚ) ≤ THUMB_OFFSET := by norm_num [THUMB_OFFSET]
    linarith
  have hfl : ⌊min s.trackWidth (max 0 x) + THUMB_OFFSET⌋
      = ⌊min s.trackWidth (max 0 x)⌋ + 8 := by
    have : THUMB_OFFSET = ((8 : ℤ) : ℚ) := by norm_num [THUMB_OFFSET]
    rw [this, Int.floor_add_int]
  simp only [spFinite, getPosition, jsTrunc, if_pos h8, hfl]
  push_cast
  norm_num [THUMB_OFFSET]

/-- C1: for every `trackWidth > 0` and pixel input `p ∈ [0, trackWidth]`,
`setPosition(p, animate)` followed by `getPosition()` returns
`clamp(floor(p), 0, trackWidth)`: the fractional input is truncated
(`parseInt`), not rounded. -/
theorem setPosition_then_getPosition (env : Env) (s : Slider) (p : ℚ) (animate : Bool)
    (hd : s.disabled = false) (hw : 0 < s.trackWidth)
    (hp0 : 0 ≤ p) (hpw : p ≤ s.trackWidth) :
    getPosition (setPosition env s (.num (some p)) animate false).1
      = clampQ ((⌊p⌋ : ℤ) : ℚ) 0 s.trackWidth := by
  have ht : jsTrunc p = ⌊p⌋ := by simp [jsTrunc, hp0]
  have h0 : (0 : ℚ) ≤ ((⌊p⌋ : ℤ) : ℚ) := by exact_mod_cast Int.floor_nonneg.mpr hp0
  have hle : ((⌊p⌋ : ℤ) : ℚ) ≤ s.trackWidth := le_trans (Int.floor_le p) hpw
  rw [setPosition_num_some env s p animate false hd, ht,
    getPosition_spFinite s _ animate false (le_of_lt hw),
    max_eq_right h0, min_eq_right hle, Int.floor_intCast, clampQ,
    max_eq_right h0, min_eq_right hle]

/-- Witness for C1 at `trackWidth = 200`, `p = 37.7`: the read-back position
is `clamp(⌊37.7⌋, 0, 200) = 37`. -/
theorem setPosition_then_getPosition_witness :
    getPosition (setPosition env0 sW200 (.num (some (377/10))) false false).1 = 37 :=
  (setPosition_then_getPosition env0 sW200 (377/10) false rfl (by norm_num [sW200, Slider.init])
    (by norm_num) (by norm_num [sW200, Slider.init])).trans
    (by norm_num [clampQ, sW200, Slider.init])

/-- C5: `setPosition` called with `isResize = true` (as done only by
`resize()`) leaves the stored `ratio` field unchanged, for every input shape
and animate flag. -/
theorem setPosition_isResize_keeps_ratio (env : Env) (s : Slider) (i : SPInput) (a : Bool) :
    (setPosition env s i a true).1.ratio = s.ratio := by
  rcases setPosition_spec env s i a true with h | ⟨x, h⟩ | h <;>
    simp [h, spFinite, spNaN]

/-- C8: a `mousemove` event received while `mousedown` is false makes
`setPosition` a complete no-op: the state is unchanged and no notification
is emitted. -/
theorem mousemove_without_mousedown_noop (env : Env) (s : Slider) (e : JSEvent)
    (a rz : Bool) (h1 : s.mousedown = false) (h2 : e.type = "mousemove") :
    setPosition env s (.ev e) a rz = (s, []) := by
  by_cases hd : s.disabled
  · simp [setPosition, hd]
  · simp [setPosition, hd, h1, h2]

/-- Witness for C8: a concrete hover move with no prior press leaves the
concrete slider untouched. -/
theorem mousemove_without_mousedown_noop_witness :
    setPosition env0 sW200 (.ev eMove) false false = (sW200, []) :=
  mousemove_without_mousedown_noop env0 sW200 eMove false false rfl rfl

/-- Counterexample to C2: with `trackWidth = 0` the division in
`setPosition` is *not* guarded.  Calling `setPosition(0, false)` on a fresh
slider (width 0) emits an `update` whose percentage is `NaN` (`none`), and
the stored ratio becomes `NaN` (`none`), not `0`. -/
theorem zero_width_percentage_nan :
    (setPosition env0 (Slider.init true 4) (.num (some 0)) false false).2
        = [SliderEvent.update (some 0) none]
      ∧ (setPosition env0 (Slider.init true 4) (.num (some 0)) false false).1.ratio = none
      ∧ (none : JSNum) ≠ some (0 : ℚ) := by
  refine ⟨?_, ?_, by simp⟩ <;>
    norm_num [setPosition, Slider.init, env0, jsParseIntNum, jsTrunc, constrain,
      getWidth, jsDiv, jsMul, jsRound]

/-- C2 (amended): when `trackWidth ≠ 0`, every `update` notification emitted
by `setPosition` whose position is a number `q` carries
`percentage = Math.round(q / trackWidth * 100)`; when `trackWidth = 0` the
division is unguarded and percentage and ratio become `NaN` instead of `0`
(see the counterexample). -/
theorem update_percentage_round (env : Env) (s : Slider) (i : SPInput) (a rz : Bool)
    (pos pct : JSNum) (q : ℚ) (hw : s.trackWidth ≠ 0)
    (hmem : SliderEvent.update pos pct ∈ (setPosition env s i a rz).2)
    (hq : pos = some q) :
    pct = some ((round (q / s.trackWidth * 100) : ℤ) : ℚ) := by
  rcases setPosition_spec env s i a rz with h | ⟨x, h⟩ | h
  · rw [h] at hmem
    simp at hmem
  · rw [h] at hmem
    simp only [spFinite, List.mem_singleton, SliderEvent.update.injEq] at hmem
    obtain ⟨hpos, hpct⟩ := hmem
    rw [hq] at hpos
    have hqc : q = s.trackWidth ⊓ (0 ⊔ x) := Option.some.inj hpos
    rw [hpct, ← hqc]
    simp [jsDiv, jsMul, jsRound, hw]
  · rw [h] at hmem
    simp only [spNaN, List.mem_singleton, SliderEvent.update.injEq] at hmem
    rw [hq] at hmem
    exact (Option.some_ne_none q hmem.1).elim

/-- Witness for C2 (amended): on the 200px slider, `setPosition(50)` emits
`percentage = 25 = round(50/200*100)`. -/
theorem update_percentage_round_witness :
    (some (25 : ℚ) : JSNum) = some ((round ((50 : ℚ) / sW200.trackWidth * 100) : ℤ) : ℚ) :=
  update_percentage_round env0 sW200 (.num (some 50)) false false
    (some 50) (some 25) 50 (by norm_num [sW200, Slider.init])
    (by norm_num [setPosition, sW200, Slider.init, env0, jsParseIntNum, jsTrunc,
      constrain, getWidth, jsDiv, jsMul, jsRound]) rfl

/-- When `sliderdown` is set, `snap` fires exactly the two xAPI
notifications, in order, and clears `sliderdown`. -/
theorem snap_xapi_of_sliderdown (env : Env) (u : Slider) (h : u.sliderdown = true) :
    ((snap env u).2).filter SliderEvent.isXAPI
        = [SliderEvent.xAPIInteracted, SliderEvent.xAPICompleted]
      ∧ (snap env u).1.sliderdown = false := by
  unfold snap
  by_cases hs : u.snap = true
  · have hsd := (setPosition_frame env u (.num (snapArg u)) true false).2.1
    have hx := setPosition_no_xapi env u (.num (snapArg u)) true false
    simp [hs, hsd, h, hx, List.filter_append, SliderEvent.isXAPI]
  · simp [hs, h, SliderEvent.isXAPI]

/-- When `sliderdown` is clear, `snap` fires no xAPI notification and leaves
`sliderdown` clear. -/
theorem snap_no_xapi_of_not_sliderdown (env : Env) (u : Slider) (h : u.sliderdown = false) :
    ((snap env u).2).filter SliderEvent.isXAPI = []
      ∧ (snap env u).1.sliderdown = false := by
  unfold snap
  by_cases hs : u.snap = true
  · have hsd := (setPosition_frame env u (.num (snapArg u)) true false).2.1
    have hx := setPosition_no_xapi env u (.num (snapArg u)) true false
    simp [hs, hsd, h, hx]
  · simp [hs, h]

/-- C7: for a press that originates on the control (`mousedown` on the track
or thumb) followed by the global `mouseup`, the release fires exactly the
two xAPI notifications "interaction started" (`xAPIInteracted`) then
"interaction possibly completed" (`xAPICompleted`), in that order, and
clears `sliderdown`, so a further release fires none; and a release whose
matching press did not originate on the control (`sliderdown` still false)
fires zero xAPI notifications. -/
theorem xapi_once_per_press_release (env : Env) (s : Slider) (e : JSEvent)
    (h : s.sliderdown = false) :
    ((onDocumentMouseup env (onTrackMousedown env s e).1).2).filter SliderEvent.isXAPI
        = [SliderEvent.xAPIInteracted, SliderEvent.xAPICompleted]
      ∧ (onDocumentMouseup env (onTrackMousedown env s e).1).1.sliderdown = false
      ∧ ((onDocumentMouseup env s).2).filter SliderEvent.isXAPI = [] := by
  have hpress : (onTrackMousedown env s e).1.sliderdown = true := by
    unfold onTrackMousedown
    exact (setPosition_frame env { s with mousedown := true, sliderdown := true }
      (.ev e) false false).2.1
  have hrel := snap_xapi_of_sliderdown env
    { (onTrackMousedown env s e).1 with mousedown := false } (by simpa using hpress)
  have hbare := snap_no_xapi_of_not_sliderdown env
    { s with mousedown := false } (by simpa using h)
  exact ⟨hrel.1, hrel.2, hbare.1⟩

/-- Witness for C7: a concrete press on the track followed by the global
release fires the two xAPI notifications in order; a bare release fires
none. -/
theorem xapi_once_per_press_release_witness :
    ((onDocumentMouseup env0 (onTrackMousedown env0 sW200 eDown).1).2).filter
        SliderEvent.isXAPI
        = [SliderEvent.xAPIInteracted, SliderEvent.xAPICompleted]
      ∧ (onDocumentMouseup env0 (onTrackMousedown env0 sW200 eDown).1).1.sliderdown = false
      ∧ ((onDocumentMouseup env0 sW200).2).filter SliderEvent.isXAPI = [] :=
  xapi_once_per_press_release env0 sW200 eDown rfl

/-- C9: `setPosition` preserves the invariant `0 ≤ positionPx ≤ trackWidth`
for every input shape (number, numeric string, pointer event, or anything
else), because the accepted raw value is clamped to `[0, trackWidth]` (and a
`NaN` raw value leaves the thumb style untouched). -/
theorem setPosition_position_invariant (env : Env) (s : Slider) (i : SPInput)
    (a rz : Bool) (hlo : 0 ≤ getPosition s) (hhi : getPosition s ≤ s.trackWidth) :
    0 ≤ getPosition (setPosition env s i a rz).1
      ∧ getPosition (setPosition env s i a rz).1 ≤ (setPosition env s i a rz).1.trackWidth := by
  have hw : 0 ≤ s.trackWidth := le_trans hlo hhi
  rcases setPosition_spec env s i a rz with h | ⟨x, h⟩ | h
  · rw [h]
    exact ⟨hlo, hhi⟩
  · rw [h, getPosition_spFinite s x a rz hw]
    have hc : 0 ≤ min s.trackWidth (max 0 x) := le_min hw (le_max_left 0 x)
    have htw : (spFinite s x a rz).1.trackWidth = s.trackWidth := by
      simp [spFinite]
    refine ⟨by exact_mod_cast Int.floor_nonneg.mpr hc, ?_⟩
    rw [htw]
    exact le_trans (Int.floor_le _) (min_le_left _ _)
  · rw [h]
    have hgp : getPosition (spNaN s a rz).1 = getPosition s := by
      simp [spNaN, getPosition]
    have htw : (spNaN s a rz).1.trackWidth = s.trackWidth := by
      simp [spNaN]
    rw [hgp, htw]
    exact ⟨hlo, hhi⟩

/-- Witness for C9: from the thumb at 100px on the 200px track, an overshoot
input of 500 keeps the stored position within `[0, trackWidth]`. -/
theorem setPosition_position_invariant_witness :
    0 ≤ getPosition (setPosition env0 sThumb100 (.num (some 500)) false false).1
      ∧ getPosition (setPosition env0 sThumb100 (.num (some 500)) false false).1
          ≤ (setPosition env0 sThumb100 (.num (some 500)) false false).1.trackWidth :=
  setPosition_position_invariant env0 sThumb100 (.num (some 500)) false false
    (by norm_num [getPosition, sThumb100, sW200, Slider.init, jsTrunc, THUMB_OFFSET])
    (by norm_num [getPosition, sThumb100, sW200, Slider.init, jsTrunc, THUMB_OFFSET])

/-- C10: when snapping is enabled and `options.size = 0`, the division
inside `snap` is unguarded: the numerator `snapIndex * trackWidth` evaluates
to `0`, the denominator is `0`, and the value passed to `setPosition` is
`0/0 = NaN` (`none`), not a finite clamped pixel offset. -/
theorem snapArg_nan_when_size_zero (s : Slider) (r : ℚ)
    (hsz : s.size = 0) (hr : s.ratio = some r) :
    snapArg s = none
      ∧ jsMul (jsRound (map s.ratio (some 0) (some 1) (some 0) (some s.size)))
          (some (getWidth s)) = some 0 := by
  constructor <;>
    simp [snapArg, map, hsz, hr, jsAdd, jsSub, jsMul, jsDiv, jsRound]

/-- Witness for C10: the concrete slider with `size = 0` and ratio 0.5
passes `NaN` to `setPosition` after a `0 * 200 = 0` numerator. -/
theorem snapArg_nan_when_size_zero_witness :
    snapArg sSize0 = none
      ∧ jsMul (jsRound (map sSize0.ratio (some 0) (some 1) (some 0) (some sSize0.size)))
          (some (getWidth sSize0)) = some 0 :=
  snapArg_nan_when_size_zero sSize0 (1/2) rfl rfl

/-- C3: with snapping enabled, a positive integral step count `m`, stored
ratio `r ∈ [0,1]` and nonnegative track width, `map(r, 0, 1, 0, m) = r·m`,
`snap()` passes the pixel value `round(map(r,0,1,0,m)) * trackWidth / m` to
the position update, the thumb lands on that pixel under the component's
truncation rule, and the move is animated. -/
theorem snap_moves_to_step_pixel (env : Env) (s : Slider) (r : ℚ) (m : ℕ)
    (hd : s.disabled = false) (hsnap : s.snap = true) (hr : s.ratio = some r)
    (hm : s.size = (m : ℚ)) (hm0 : 0 < m) (hr0 : 0 ≤ r) (hr1 : r ≤ 1)
    (hw : 0 ≤ s.trackWidth) :
    map s.ratio (some 0) (some 1) (some 0) (some s.size) = some (r * s.size)
      ∧ snapArg s = some (((round (r * s.size) : ℤ) : ℚ) * s.trackWidth / s.size)
      ∧ getPosition (snap env s).1
          = ((jsTrunc (((round (r * s.size) : ℤ) : ℚ) * s.trackWidth / s.size) : ℤ) : ℚ)
      ∧ (snap env s).1.animateClass = true := by
  have hms : s.size ≠ 0 := by
    rw [hm]
    exact_mod_cast hm0.ne'
  have hmap : map s.ratio (some 0) (some 1) (some 0) (some s.size) = some (r * s.size) := by
    simp [map, hr, jsAdd, jsSub, jsMul, jsDiv]
  have harq : snapArg s
      = some (((round (r * s.size) : ℤ) : ℚ) * s.trackWidth / s.size) := by
    simp [snapArg, hmap, jsRound, jsMul, jsDiv, hms, getWidth]
  set X : ℚ := ((round (r * s.size) : ℤ) : ℚ) * s.trackWidth / s.size with hX
  have hsz0 : (0 : ℚ) ≤ s.size := by
    rw [hm]
    exact_mod_cast Nat.zero_le m
  have hszpos : (0 : ℚ) < s.size := lt_of_le_of_ne hsz0 (Ne.symm hms)
  have hrs0 : 0 ≤ r * s.size := mul_nonneg hr0 hsz0
  have hk0 : (0 : ℚ) ≤ ((round (r * s.size) : ℤ) : ℚ) := by
    have h1 : (0 : ℤ) ≤ round (r * s.size) := by
      rw [round_eq]
      exact Int.floor_nonneg.mpr (by linarith)
    exact_mod_cast h1
  have hks : ((round (r * s.size) : ℤ) : ℚ) ≤ s.size := by
    rw [hm]
    have hm0' : (0 : ℚ) ≤ (m : ℚ) := by exact_mod_cast Nat.zero_le m
    have hrs : r * (m : ℚ) ≤ (m : ℚ) := by nlinarith
    have h1 : round (r * (m : ℚ)) ≤ (m : ℤ) := by
      rw [round_eq]
      refine Int.lt_add_one_iff.mp (Int.floor_lt.mpr ?_)
      push_cast
      linarith
    exact_mod_cast h1
  have hX0 : 0 ≤ X := div_nonneg (mul_nonneg hk0 hw) hsz0
  have hXw : X ≤ s.trackWidth := by
    rw [hX, div_le_iff₀ hszpos]
    calc ((round (r * s.size) : ℤ) : ℚ) * s.trackWidth
        ≤ s.size * s.trackWidth := mul_le_mul_of_nonneg_right hks hw
      _ = s.trackWidth * s.size := mul_comm _ _
  have ht : jsTrunc X = ⌊X⌋ := by simp [jsTrunc, hX0]
  have hfl0 : (0 : ℚ) ≤ ((⌊X⌋ : ℤ) : ℚ) := by exact_mod_cast Int.floor_nonneg.mpr hX0
  have hflw : ((⌊X⌋ : ℤ) : ℚ) ≤ s.trackWidth := le_trans (Int.floor_le X) hXw
  have hstep : setPosition env s (.num (snapArg s)) true false
      = spFinite s ((⌊X⌋ : ℤ) : ℚ) true false := by
    rw [harq, setPosition_num_some env s X true false hd, ht]
  have hpos1 : getPosition (spFinite s ((⌊X⌋ : ℤ) : ℚ) true false).1 = ((⌊X⌋ : ℤ) : ℚ) := by
    rw [getPosition_spFinite s _ true false hw, max_eq_right hfl0,
      min_eq_right hflw, Int.floor_intCast]
  refine ⟨hmap, harq, ?_, ?_⟩
  · rw [ht]
    simp only [snap, hsnap, if_true, hstep]
    by_cases hsd : (spFinite s ((⌊X⌋ : ℤ) : ℚ) true false).1.sliderdown = true
    · rw [if_pos hsd]
      simpa [getPosition] using hpos1
    · rw [if_neg hsd]
      exact hpos1
  · simp only [snap, hsnap, if_true, hstep]
    by_cases hsd : (spFinite s ((⌊X⌋ : ℤ) : ℚ) true false).1.sliderdown = true
    · rw [if_pos hsd]
      simp [spFinite]
    · rw [if_neg hsd]
      simp [spFinite]

/-- Witness for C3 at `trackWidth = 200`, `stepCount = 4`, `ratio = 0.3`:
`snapIndex = round(1.2) = 1` and the thumb lands at pixel `50`, animated. -/
theorem snap_moves_to_step_pixel_witness :
    getPosition (snap env0 sRatio03).1 = 50
      ∧ (snap env0 sRatio03).1.animateClass = true := by
  have h := snap_moves_to_step_pixel env0 sRatio03 (3/10) 4 rfl rfl rfl
    (by norm_num [sRatio03, sW200, Slider.init]) (by norm_num) (by norm_num)
    (by norm_num) (by norm_num [sRatio03, sW200, Slider.init])
  refine ⟨h.2.2.1.trans ?_, h.2.2.2⟩
  norm_num [jsTrunc, round_eq, sRatio03, sW200, Slider.init]

/-- C4: `resize()` recomputes the track width as
`parseInt(container.offsetWidth) - 2 * TRACK_OFFSET` and, for any stored
ratio `r ∈ [0,1]`, sets the resulting position to the pixel-truncated value
of `newWidth * r`, independent of the previous track width. -/
theorem resize_position_from_ratio (env : Env) (s : Slider) (r : ℚ)
    (hd : s.disabled = false) (hr : s.ratio = some r) (hr0 : 0 ≤ r) (hr1 : r ≤ 1)
    (hW : 0 ≤ ((jsTrunc env.containerOffsetWidth : ℤ) : ℚ) - 2 * TRACK_OFFSET) :
    (resize env s).1.trackWidth
        = ((jsTrunc env.containerOffsetWidth : ℤ) : ℚ) - 2 * TRACK_OFFSET
      ∧ getPosition (resize env s).1
          = ((⌊(((jsTrunc env.containerOffsetWidth : ℤ) : ℚ) - 2 * TRACK_OFFSET) * r⌋ : ℤ) : ℚ) := by
  set W : ℚ := ((jsTrunc env.containerOffsetWidth : ℤ) : ℚ) - 2 * TRACK_OFFSET with hWdef
  have hres : resize env s
      = setPosition env { s with trackWidth := W } (.num (some (W * r))) false true := by
    simp [resize, setWidth, getWidth, jsMul, hr]
  have hd' : Slider.disabled { s with trackWidth := W } = false := hd
  have hWr0 : 0 ≤ W * r := mul_nonneg hW hr0
  have ht : jsTrunc (W * r) = ⌊W * r⌋ := by simp [jsTrunc, hWr0]
  have hfl0 : (0 : ℚ) ≤ ((⌊W * r⌋ : ℤ) : ℚ) := by exact_mod_cast Int.floor_nonneg.mpr hWr0
  have hWrW : W * r ≤ W := mul_le_of_le_one_right hW hr1
  have hflW : ((⌊W * r⌋ : ℤ) : ℚ) ≤ W := le_trans (Int.floor_le _) hWrW
  rw [hres, setPosition_num_some env { s with trackWidth := W } (W * r) false true hd', ht]
  constructor
  · simp [spFinite]
  · rw [getPosition_spFinite { s with trackWidth := W } _ false true hW]
    show ((⌊min W (max 0 ((⌊W * r⌋ : ℤ) : ℚ))⌋ : ℤ) : ℚ) = _
    rw [max_eq_right hfl0, min_eq_right hflW, Int.floor_intCast]

/-- Witness for C4: previous width 999, ratio 0.3, container 232px wide:
the new track width is `232 - 32 = 200` and the position becomes
`⌊200 * 0.3⌋ = 60`, independent of the stale width. -/
theorem resize_position_from_ratio_witness :
    (resize env0 sStale).1.trackWidth = 200
      ∧ getPosition (resize env0 sStale).1 = 60 := by
  have h := resize_position_from_ratio env0 sStale (3/10) rfl rfl
    (by norm_num) (by norm_num)
    (by norm_num [env0, jsTrunc, TRACK_OFFSET])
  refine ⟨h.1.trans ?_, h.2.trans ?_⟩ <;>
    norm_num [env0, jsTrunc, TRACK_OFFSET]

/-- Counterexample to C6: holding the left key, the *second* key-down of the
same hold (no key-up in between) moves the thumb again: from 100px the first
key-down reaches 98px and the repeated one 96px, while the claim predicts
the position stays at 98px.  The code's guard
`keydown === false || keydown === 37` admits same-direction repeats. -/
theorem keyrepeat_counterexample :
    getPosition (onThumbKeydown env0 sThumb100 37).1 = 98
      ∧ getPosition (onThumbKeydown env0 (onThumbKeydown env0 sThumb100 37).1 37).1 = 96
      ∧ (96 : ℚ) ≠ 98 := by
  refine ⟨?_, ?_, by norm_num⟩ <;>
    norm_num [onThumbKeydown, setPosition, getPosition, sThumb100, sW200, Slider.init,
      env0, jsParseIntNum, jsTrunc, constrain, getWidth, jsDiv, jsMul, jsRound,
      THUMB_OFFSET]

/-- C6 (amended): while the left key (37) is recorded as held, a repeated
key-down for the same direction *reapplies* the −1%-of-trackWidth step (the
guard `keydown === false || keydown === 37` admits same-direction
key-repeat); what the guard blocks is a key-down for the opposite direction
(39), which is a complete no-op until key-up clears the held key. -/
theorem keydown_direction_guard (env : Env) (s : Slider) (h : s.keydown = some 37) :
    onThumbKeydown env s 37
        = setPosition env s
            (.num (some (getPosition s - 1/100 * ((jsTrunc (getWidth s) : ℤ) : ℚ))))
            false false
      ∧ onThumbKeydown env s 39 = (s, [])
      ∧ (onThumbKeyup env s).1.keydown = none := by
  have hs37 : { s with keydown := some 37 } = s := by rw [← h]
  refine ⟨?_, ?_, ?_⟩
  · simp [onThumbKeydown, h, hs37]
  · simp [onThumbKeydown, h]
  · simp [onThumbKeyup]

/-- Witness for C6 (amended): the concrete held-left slider at 100px. -/
theorem keydown_direction_guard_witness :
    onThumbKeydown env0 sHeldLeft 37
        = setPosition env0 sHeldLeft
            (.num (some (getPosition sHeldLeft - 1/100 * ((jsTrunc (getWidth sHeldLeft) : ℤ) : ℚ))))
            false false
      ∧ onThumbKeydown env0 sHeldLeft 39 = (sHeldLeft, [])
      ∧ (onThumbKeyup env0 sHeldLeft).1.keydown = none :=
  keydown_direction_guard env0 sHeldLeft rfl

end Agamotto
